import Mathlib

/-!
A shallow embedding of the email-verification backend (`backend/verifier.py`
and the progress loop of `backend/jobs.py`) and proofs about it.

Python strings are `String`, the network is an explicit environment of
oracles (`Env`), the per-session caches are association lists threaded as
state, and each method of `EmailVerifier` becomes a pure function.
-/

namespace EmailVerifierModel

/-- The character class `[a-zA-Z0-9._%+-]` of the local part of the
syntax regex in `EmailVerifier.check_syntax`. -/
def localChar (c : Char) : Bool :=
  c.isAlpha || c.isDigit || c = '.' || c = '_' || c = '%' || c = '+' || c = '-'

/-- The character class `[a-zA-Z0-9.-]` of the domain part of the
syntax regex in `EmailVerifier.check_syntax`. -/
def domChar (c : Char) : Bool :=
  c.isAlpha || c.isDigit || c = '.' || c = '-'

/-- Whether the part after the `@` matches `[a-zA-Z0-9.-]+\.[a-zA-Z]{2,}`
(anchored at the end).  The final `[a-zA-Z]{2,}$` forces the chosen dot to
be the last dot of the string, so we split at the maximal alphabetic
suffix. -/
def domainPart (d : List Char) : Bool :=
  let r := d.reverse
  let tld := r.takeWhile (fun x => x.isAlpha)
  match r.drop tld.length with
  | '.' :: b => decide (2 ≤ tld.length) && !b.isEmpty && b.all domChar
  | _ => false

/-- Models `EmailVerifier.check_syntax`:
`re.match(r'^[a-zA-Z0-9._%+-]+@[a-zA-Z0-9.-]+\.[a-zA-Z]{2,}$', email)`.
Python's `$` also matches just before one trailing newline, so a single
trailing newline is stripped first (no regex character class contains a
newline, so this is exactly the set of matching strings). -/
def check_stx (email : String) : Bool :=
  let s := email.data
  let t := if s.getLast? = some '\n' then s.dropLast else s
  let lp := t.takeWhile localChar
  match t.drop lp.length with
  | '@' :: d => !lp.isEmpty && domainPart d
  | _ => false

/-- Models Python's `str.split(sep)` for a one-character separator:
`"".split` is `[""]`, and each occurrence of the separator starts a new
piece. -/
def pySplit (sep : Char) : List Char → List (List Char)
  | [] => [[]]
  | c :: cs =>
    if c = sep then [] :: pySplit sep cs
    else
      match pySplit sep cs with
      | [] => [[c]]
      | h :: t => (c :: h) :: t

/-- The `DISPOSABLE_DOMAINS` set of `verifier.py`. -/
def DISPOSABLE_DOMAINS : List String :=
  ["mailinator.com", "yopmail.com", "temp-mail.org", "guerrillamail.com",
   "10minutemail.com", "throwawaymail.com", "fakeinbox.com", "getairmail.com"]

/-- The `ROLE_PREFIXES` set of `verifier.py`. -/
def ROLE_PREFIXES : List String :=
  ["admin", "support", "info", "contact", "sales", "marketing", "billing",
   "abuse", "postmaster", "webmaster", "jobs", "hr", "noreply", "no-reply"]

/-- Lowercases a string character by character, modelling `str.lower()`. -/
def pyLower (s : String) : String :=
  String.mk (s.data.map Char.toLower)

/-- Models `EmailVerifier.is_disposable`: `domain.lower() in DISPOSABLE_DOMAINS`. -/
def is_disposable (domain : String) : Bool :=
  DISPOSABLE_DOMAINS.contains (pyLower domain)

/-- Models `EmailVerifier.is_role_account`:
`email.split('@')[0].lower() in ROLE_PREFIXES` (index 0 always exists). -/
def is_role_account (email : String) : Bool :=
  ROLE_PREFIXES.contains (pyLower (String.mk ((pySplit '@' email.data).headD [])))

/-- One MX record as returned by the resolver: a preference value and an
exchange hostname (possibly with a trailing dot). -/
structure MxRecord where
  preference : Nat
  exchange : String
deriving Repr, DecidableEq

/-- The outcome of one `resolver.resolve(domain, 'MX')` call:
a record set, the `NoAnswer`/`NXDOMAIN`/`NoNameservers` family, or any
other exception. -/
inductive MxOutcome where
  | ok (records : List MxRecord)
  | noAnswer
  | err (msg : String)
deriving Repr, DecidableEq

/-- The outcome of one SMTP probe of `(email, host)`: an RCPT reply
`(code, message)`, an `SMTPResponseException` raised during the session,
a connection-level failure (`SMTPConnectError` / `SMTPTimeoutError` /
`TimeoutError` / `ConnectionRefusedError`), or any other exception. -/
inductive SmtpOutcome where
  | reply (code : Nat) (message : String)
  | responseExc (code : Nat) (message : String)
  | connBlocked
  | otherExc (msg : String)
deriving Repr, DecidableEq

/-- The network environment: the configured resolver's MX answer, the
A-record existence check, the fallback system resolver's MX answer, the
SMTP probe oracle, the random local part generated per domain by
`is_catch_all`, and an optional injected fault modelling any exception
that would escape the pipeline into `verify`'s top-level handler. -/
structure Env where
  mx : String → MxOutcome
  aRecord : String → Bool
  sysMx : String → MxOutcome
  probe : String → String → SmtpOutcome
  synth : String → String
  fault : Option String

/-- The per-session MX cache `self.mx_cache : Dict[str, List[str]]`. -/
abbrev MxCache := List (String × List String)

/-- The per-session catch-all cache `self.catch_all_cache : Dict[str, bool]`. -/
abbrev CatchAllCache := List (String × Bool)

/-- The mutable state of one `EmailVerifier` instance. -/
structure VState where
  mx_cache : MxCache
  catch_all_cache : CatchAllCache
deriving Repr, DecidableEq

/-- Models `str(r.exchange).rstrip('.')`: strips every trailing dot. -/
def rstripDot (s : String) : String :=
  String.mk ((s.data.reverse.dropWhile (fun c => c = '.')).reverse)

/-- Lexicographic order on code points, which is exactly how Python
compares two strings. -/
def lexLe : List Char → List Char → Bool
  | [], _ => true
  | _ :: _, [] => false
  | a :: as, b :: bs =>
    if a.toNat < b.toNat then true
    else if b.toNat < a.toNat then false
    else lexLe as bs

/-- Python's `<=` on strings. -/
def strLe (a b : String) : Bool := lexLe a.data b.data

/-- Insert into a lexicographically sorted list (stable). -/
def insSorted (a : String) : List String → List String
  | [] => [a]
  | b :: bs => if strLe a b then a :: b :: bs else b :: insSorted a bs

/-- Models Python's `sorted` on a list of strings: a stable sort by the
lexicographic order on code points. -/
def pySorted : List String → List String
  | [] => []
  | a :: as => insSorted a (pySorted as)

/-- The host list `sorted([str(r.exchange).rstrip('.') for r in records])`
built by `get_mx_records` from a record set. -/
def hostsOf (records : List MxRecord) : List String :=
  pySorted (records.map (fun r => rstripDot r.exchange))

/-- Models `EmailVerifier.get_mx_records`.  Returns the Python return
value (`None` on indeterminate failure) together with the updated
`mx_cache`; a cache write is a cons, which shadows older entries exactly
as a dict overwrite does. -/
def get_mx_records (env : Env) (cache : MxCache) (domain : String) :
    Option (List String) × MxCache :=
  match cache.lookup domain with
  | some hosts => (some hosts, cache)
  | none =>
    match env.mx domain with
    | .ok records => (some (hostsOf records), (domain, hostsOf records) :: cache)
    | .noAnswer =>
      if env.aRecord domain then
        (some [], (domain, []) :: cache)
      else
        (some [], (domain, []) :: cache)
    | .err _ =>
      match env.sysMx domain with
      | .ok records => (some (hostsOf records), (domain, hostsOf records) :: cache)
      | _ => (none, cache)

/-- The `{status, reason}` dict returned by `check_smtp`. -/
structure SmtpResult where
  status : String
  reason : String
deriving Repr, DecidableEq

/-- Models `EmailVerifier.check_smtp`: classifies the probe outcome for
`(email, mx_server)`. -/
def check_smtp (env : Env) (email mx_server : String) : SmtpResult :=
  match env.probe email mx_server with
  | .reply code message =>
    if code = 250 then ⟨"VALID", "SMTP Response 250 OK"⟩
    else if code = 550 then ⟨"INVALID", "User Not Found (550)"⟩
    else ⟨"UNKNOWN", "SMTP Response " ++ toString code ++ ": " ++ message⟩
  | .responseExc code message =>
    ⟨"UNKNOWN", "SMTP Error " ++ toString code ++ ": " ++ message⟩
  | .connBlocked => ⟨"RISKY", "SMTP Connection Blocked"⟩
  | .otherExc msg => ⟨"UNKNOWN", "SMTP Exception: " ++ msg⟩

/-- Models `EmailVerifier.is_catch_all`: probes `<random>@domain` on the
given host and memoizes whether the probe came back `VALID`. -/
def is_catch_all (env : Env) (cache : CatchAllCache) (domain mx_server : String) :
    Bool × CatchAllCache :=
  match cache.lookup domain with
  | some b => (b, cache)
  | none =>
    let test_email := env.synth domain ++ "@" ++ domain
    let result := check_smtp env test_email mx_server
    let b := result.status == "VALID"
    (b, (domain, b) :: cache)

/-- The result dict built by `verify`. -/
structure VerificationResult where
  email : String
  status : String
  reason : String
  smtp_valid : Bool
  mx_found : Bool
  catch_all : Bool
deriving Repr, DecidableEq

/-- The dict returned by `verify`'s top-level `except` handler. -/
def systemError (email msg : String) : VerificationResult :=
  ⟨email, "UNKNOWN", "System Error: " ++ msg, false, false, false⟩

/-- The body of `EmailVerifier.verify` (the code inside the top-level
`try`), threading the result dict through the same sequence of mutations
as the Python. -/
def verify_body (env : Env) (st : VState) (email : String) :
    VerificationResult × VState :=
  let r0 : VerificationResult := ⟨email, "UNKNOWN", "", false, false, false⟩
  if check_stx email = false then
    ({ r0 with status := "INVALID", reason := "Invalid Syntax" }, st)
  else
    match (pySplit '@' email.data)[1]? with
    | none => ({ r0 with status := "INVALID", reason := "Invalid Format" }, st)
    | some dpart =>
      let domain := pyLower (String.mk dpart)
      if is_disposable domain then
        ({ r0 with status := "INVALID", reason := "Disposable Domain" }, st)
      else
        let r1 := if is_role_account email then
            { r0 with status := "RISKY", reason := "Role-Based Account" }
          else r0
        let st1 : VState := ⟨(get_mx_records env st.mx_cache domain).2, st.catch_all_cache⟩
        match (get_mx_records env st.mx_cache domain).1 with
        | none => ({ r1 with status := "UNKNOWN", reason := "DNS Lookup Failed" }, st1)
        | some [] => ({ r1 with status := "INVALID", reason := "No MX Records" }, st1)
        | some (mx_server :: _) =>
          let r2 := { r1 with mx_found := true }
          let smtp_result := check_smtp env email mx_server
          if smtp_result.status = "VALID" then
            ({ r2 with status := "VALID", reason := "SMTP Valid", smtp_valid := true }, st1)
          else if smtp_result.status = "INVALID" then
            ({ r2 with status := "INVALID", reason := smtp_result.reason }, st1)
          else if smtp_result.status = "RISKY" then
            if r2.status = "RISKY" ∧ r2.reason = "Role-Based Account" then
              (r2, st1)
            else
              ({ r2 with status := "VALID", reason := "Domain Valid (SMTP Blocked)",
                         smtp_valid := true }, st1)
          else
            ({ r2 with status := "UNKNOWN", reason := smtp_result.reason }, st1)

/-- Models `EmailVerifier.verify`: the body wrapped in the top-level
`try/except` that converts any uncaught fault into a `System Error`
result. -/
def verify (env : Env) (st : VState) (email : String) :
    VerificationResult × VState :=
  match env.fault with
  | some e => (systemError email e, st)
  | none => verify_body env st email

/-- Models Python's `range(start, stop, step)` for a positive step. -/
def pyRange (stop step start : Nat) : List Nat :=
  if _h : start < stop ∧ 0 < step then start :: pyRange stop step (start + step)
  else []
termination_by stop - start
decreasing_by omega

/-- `BATCH_SIZE` of `jobs.py`. -/
def BATCH_SIZE : Nat := 50

/-- The sequence of cumulative counts passed to `update_job_progress` by
the loop `for i in range(0, total, BATCH_SIZE)` of `process_csv`, which
reports `processed = min(i + BATCH_SIZE, total)` once per window. -/
def progress_updates (emails : List String) : List Nat :=
  (pyRange emails.length BATCH_SIZE 0).map (fun i => min (i + BATCH_SIZE) emails.length)

/-- Spec-side definition, for comparison with the code: the best-ranked
exchange by true MX preference, "lowest preference value first"
(spec §4.1), with the trailing dot stripped as the code does. -/
def spec_bestByPreference (records : List MxRecord) : Option String :=
  (records.foldr
    (fun r acc =>
      match acc with
      | none => some r
      | some b => if r.preference ≤ b.preference then some r else some b)
    none).map (fun r => rstripDot r.exchange)

/-! Concrete environments used by the concrete theorems and witnesses. -/

/-- A domain whose best-ranked MX host accepts every recipient (RCPT
always answers 250): a catch-all server. -/
def env_catchall : Env where
  mx := fun d => if d = "catchall.test" then .ok [⟨10, "mx.catchall.test."⟩] else .noAnswer
  aRecord := fun _ => false
  sysMx := fun _ => .noAnswer
  probe := fun _ _ => .reply 250 "ok"
  synth := fun _ => "qzkx7w2m9p4r1s8"
  fault := none

/-- A domain with two MX records whose preference order (10 before 20) is
the reverse of the lexicographic order of the hostnames; the host with
preference 20 rejects with 550, the host with preference 10 accepts. -/
def env_mxorder : Env where
  mx := fun _ => .ok [⟨20, "aa.example.test."⟩, ⟨10, "zz.example.test."⟩]
  aRecord := fun _ => false
  sysMx := fun _ => .noAnswer
  probe := fun _ h => if h = "aa.example.test" then .reply 550 "User unknown" else .reply 250 "ok"
  synth := fun _ => "x"
  fault := none

/-- A domain with valid MX whose port 25 is blocked. -/
def env_blocked : Env where
  mx := fun _ => .ok [⟨10, "mx.blocked.test."⟩]
  aRecord := fun _ => true
  sysMx := fun _ => .noAnswer
  probe := fun _ _ => .connBlocked
  synth := fun _ => "x"
  fault := none

/-- An environment with an injected pipeline fault. -/
def env_fault : Env where
  mx := fun _ => .noAnswer
  aRecord := fun _ => false
  sysMx := fun _ => .noAnswer
  probe := fun _ _ => .connBlocked
  synth := fun _ => "x"
  fault := some "boom"

/-- Both the configured resolver and the fallback system resolver fail
with a transport error. -/
def env_dnsfail : Env where
  mx := fun _ => .err "timeout"
  aRecord := fun _ => false
  sysMx := fun _ => .err "timeout"
  probe := fun _ _ => .connBlocked
  synth := fun _ => "x"
  fault := none

/-- A domain with neither MX nor A records. -/
def env_nomx : Env where
  mx := fun _ => .noAnswer
  aRecord := fun _ => false
  sysMx := fun _ => .noAnswer
  probe := fun _ _ => .connBlocked
  synth := fun _ => "x"
  fault := none

/-- C1: the catch-all detector classifies the best-ranked host of
`catchall.test` as catch-all (the synthetic-address probe returns VALID),
yet `verify` — which never invokes `is_catch_all` — probes the literal
address and returns VALID/"SMTP Valid" with `catch_all = false` instead
of the claimed terminal CATCH_ALL/"Domain is Catch-All" with
`catch_all = true`. -/
theorem catch_all_never_returned :
    (is_catch_all env_catchall [] "catchall.test" "mx.catchall.test").1 = true ∧
    (verify env_catchall ⟨[], []⟩ "user@catchall.test").1 =
      ⟨"user@catchall.test", "VALID", "SMTP Valid", true, true, false⟩ := by
  exact ⟨rfl, rfl⟩

/-- C2: `get_mx_records` sorts the host list lexicographically by
hostname, not by MX preference: for a record set whose preference-best
host is `zz.example.test` (preference 10), the cached list puts
`aa.example.test` (preference 20) first, and `verify` probes that
lexicographically-first host (observable through the 550 answer that only
that host gives). -/
theorem mx_order_lexicographic_not_preference :
    (get_mx_records env_mxorder [] "example.test").1 =
      some ["aa.example.test", "zz.example.test"] ∧
    spec_bestByPreference [⟨20, "aa.example.test."⟩, ⟨10, "zz.example.test."⟩] =
      some "zz.example.test" ∧
    (verify env_mxorder ⟨[], []⟩ "bob@example.test").1 =
      ⟨"bob@example.test", "INVALID", "User Not Found (550)", false, true, false⟩ := by
  exact ⟨rfl, rfl, rfl⟩

/-- C4: any fault escaping the pipeline is converted by `verify`'s
top-level handler into an UNKNOWN result with reason
`System Error: <detail>` and all three booleans false; the state is
untouched and nothing propagates past the per-address call. -/
theorem system_error_conversion (env : Env) (st : VState) (email e : String)
    (hfault : env.fault = some e) :
    verify env st email =
      (⟨email, "UNKNOWN", "System Error: " ++ e, false, false, false⟩, st) := by
  simp [verify, hfault, systemError]

/-- Witness for C4. -/
theorem system_error_conversion_witness :
    verify env_fault ⟨[], []⟩ "a@b.co" =
      (⟨"a@b.co", "UNKNOWN", "System Error: boom", false, false, false⟩, ⟨[], []⟩) :=
  system_error_conversion env_fault ⟨[], []⟩ "a@b.co" "boom" rfl

/-- C5: `check_smtp` classifies exactly by: RCPT 250 → VALID
"SMTP Response 250 OK"; 550 → INVALID "User Not Found (550)"; any other
reply code → UNKNOWN with code and message; a connection-level failure
(refused / connect timeout / transport timeout) → RISKY
"SMTP Connection Blocked"; any other exception → UNKNOWN with the
exception text. -/
theorem smtp_classification (env : Env) (email mx_server : String) :
    (∀ m, env.probe email mx_server = .reply 250 m →
      check_smtp env email mx_server = ⟨"VALID", "SMTP Response 250 OK"⟩) ∧
    (∀ m, env.probe email mx_server = .reply 550 m →
      check_smtp env email mx_server = ⟨"INVALID", "User Not Found (550)"⟩) ∧
    (∀ c m, env.probe email mx_server = .reply c m → c ≠ 250 → c ≠ 550 →
      check_smtp env email mx_server =
        ⟨"UNKNOWN", "SMTP Response " ++ toString c ++ ": " ++ m⟩) ∧
    (env.probe email mx_server = .connBlocked →
      check_smtp env email mx_server = ⟨"RISKY", "SMTP Connection Blocked"⟩) ∧
    (∀ c m, env.probe email mx_server = .responseExc c m →
      check_smtp env email mx_server =
        ⟨"UNKNOWN", "SMTP Error " ++ toString c ++ ": " ++ m⟩) ∧
    (∀ m, env.probe email mx_server = .otherExc m →
      check_smtp env email mx_server = ⟨"UNKNOWN", "SMTP Exception: " ++ m⟩) := by
  refine ⟨?_, ?_, ?_, ?_, ?_, ?_⟩ <;> intros <;> simp_all [check_smtp]

/-- Witness for C5: the blocked case and the 250 case at a concrete
environment. -/
theorem smtp_classification_witness :
    check_smtp env_blocked "bob@blocked.test" "mx.blocked.test" =
      ⟨"RISKY", "SMTP Connection Blocked"⟩ ∧
    check_smtp env_catchall "user@catchall.test" "mx.catchall.test" =
      ⟨"VALID", "SMTP Response 250 OK"⟩ :=
  ⟨(smtp_classification env_blocked "bob@blocked.test" "mx.blocked.test").2.2.2.1 rfl,
   (smtp_classification env_catchall "user@catchall.test" "mx.catchall.test").1 "ok" rfl⟩

/-- C8: a string rejected by the syntax regex yields INVALID
"Invalid Syntax" with `mx_found = false`, and the caches are untouched
(no DNS or SMTP step is reached, for every environment). -/
theorem invalid_syntax_terminal (env : Env) (st : VState) (email : String)
    (hfault : env.fault = none) (hsyn : check_stx email = false) :
    verify env st email =
      (⟨email, "INVALID", "Invalid Syntax", false, false, false⟩, st) := by
  simp [verify, hfault, verify_body, hsyn]

/-- Witness for C8. -/
theorem invalid_syntax_terminal_witness :
    verify env_nomx ⟨[], []⟩ "not-an-email" =
      (⟨"not-an-email", "INVALID", "Invalid Syntax", false, false, false⟩, ⟨[], []⟩) :=
  invalid_syntax_terminal env_nomx ⟨[], []⟩ "not-an-email" rfl (by decide)

/-- C3: when the final SMTP probe of the literal address is
connection-blocked (classified RISKY), a role local-part keeps the
provisional RISKY/"Role-Based Account" verdict, while a non-role
local-part is upgraded to VALID/"Domain Valid (SMTP Blocked)" with
`smtp_valid = true` — the role flag always wins over the upgrade. -/
theorem role_precedence_over_blocked_upgrade (env : Env) (st : VState)
    (email : String) (dpart : List Char) (mx_server : String) (rest : List String)
    (hfault : env.fault = none)
    (hsyn : check_stx email = true)
    (hdom : (pySplit '@' email.data)[1]? = some dpart)
    (hdisp : is_disposable (pyLower (String.mk dpart)) = false)
    (hmx : (get_mx_records env st.mx_cache (pyLower (String.mk dpart))).1 =
      some (mx_server :: rest))
    (hprobe : env.probe email mx_server = .connBlocked) :
    (is_role_account email = true →
      (verify env st email).1.status = "RISKY" ∧
      (verify env st email).1.reason = "Role-Based Account" ∧
      (verify env st email).1.smtp_valid = false) ∧
    (is_role_account email = false →
      (verify env st email).1.status = "VALID" ∧
      (verify env st email).1.reason = "Domain Valid (SMTP Blocked)" ∧
      (verify env st email).1.smtp_valid = true) := by
  constructor <;> intro hrole <;>
    simp [verify, hfault, verify_body, hsyn, hdom, hdisp, hmx, hrole, check_smtp, hprobe]

/-- Witness for C3: the role address keeps RISKY, the non-role address is
upgraded, on the same blocked domain. -/
theorem role_precedence_over_blocked_upgrade_witness :
    (verify env_blocked ⟨[], []⟩ "admin@blocked.test").1.status = "RISKY" ∧
    (verify env_blocked ⟨[], []⟩ "admin@blocked.test").1.reason = "Role-Based Account" ∧
    (verify env_blocked ⟨[], []⟩ "bob@blocked.test").1.status = "VALID" ∧
    (verify env_blocked ⟨[], []⟩ "bob@blocked.test").1.reason = "Domain Valid (SMTP Blocked)" ∧
    (verify env_blocked ⟨[], []⟩ "bob@blocked.test").1.smtp_valid = true := by
  have ha := (role_precedence_over_blocked_upgrade env_blocked ⟨[], []⟩
    "admin@blocked.test" "blocked.test".data "mx.blocked.test" []
    rfl (by decide) (by decide) (by decide) rfl rfl).1 (by decide)
  have hb := (role_precedence_over_blocked_upgrade env_blocked ⟨[], []⟩
    "bob@blocked.test" "blocked.test".data "mx.blocked.test" []
    rfl (by decide) (by decide) (by decide) rfl rfl).2 (by decide)
  exact ⟨ha.1, ha.2.1, hb.1, hb.2.1, hb.2.2⟩

/-- C6: the MX cache receives only successful outcomes.  Every call
either leaves the cache unchanged or writes the successfully returned
host list; on a transport-level DNS failure the lookup is retried once
with the unconfigured system resolver, and if that retry also fails the
call returns the error value `none` without writing any cache entry. -/
theorem mx_cache_success_only (env : Env) (cache : MxCache) (domain : String) :
    ((get_mx_records env cache domain).1 = none →
      (get_mx_records env cache domain).2 = cache) ∧
    ((get_mx_records env cache domain).2 = cache ∨
      ∃ hosts, (get_mx_records env cache domain).1 = some hosts ∧
        (get_mx_records env cache domain).2 = (domain, hosts) :: cache) ∧
    (∀ e records, cache.lookup domain = none → env.mx domain = .err e →
      env.sysMx domain = .ok records →
      get_mx_records env cache domain =
        (some (hostsOf records), (domain, hostsOf records) :: cache)) ∧
    (∀ e, cache.lookup domain = none → env.mx domain = .err e →
      (∀ records, env.sysMx domain ≠ .ok records) →
      get_mx_records env cache domain = (none, cache)) := by
  cases hc : cache.lookup domain with
  | some hosts =>
    have hval : get_mx_records env cache domain = (some hosts, cache) := by
      simp [get_mx_records, hc]
    rw [hval]
    refine ⟨by simp, Or.inl rfl, ?_, ?_⟩ <;>
      · intro e
        intros
        simp_all
  | none =>
    cases hm : env.mx domain with
    | ok records =>
      have hval : get_mx_records env cache domain =
          (some (hostsOf records), (domain, hostsOf records) :: cache) := by
        simp [get_mx_records, hc, hm]
      rw [hval]
      refine ⟨by simp, Or.inr ⟨hostsOf records, rfl, rfl⟩, ?_, ?_⟩
      · intro e r _ hm' _
        cases hm'
      · intro e _ hm' _
        cases hm'
    | noAnswer =>
      have hval : get_mx_records env cache domain = (some [], (domain, []) :: cache) := by
        simp [get_mx_records, hc, hm]
      rw [hval]
      refine ⟨by simp, Or.inr ⟨[], rfl, rfl⟩, ?_, ?_⟩
      · intro e r _ hm' _
        cases hm'
      · intro e _ hm' _
        cases hm'
    | err msg =>
      cases hs : env.sysMx domain with
      | ok srecords =>
        have hval : get_mx_records env cache domain =
            (some (hostsOf srecords), (domain, hostsOf srecords) :: cache) := by
          simp [get_mx_records, hc, hm, hs]
        rw [hval]
        refine ⟨by simp, Or.inr ⟨hostsOf srecords, rfl, rfl⟩, ?_, ?_⟩
        · intro e r _ _ hok
          cases hok
          rfl
        · intro e _ _ hne
          exact absurd rfl (hne srecords)
      | noAnswer =>
        have hval : get_mx_records env cache domain = (none, cache) := by
          simp [get_mx_records, hc, hm, hs]
        rw [hval]
        refine ⟨fun _ => rfl, Or.inl rfl, ?_, fun _ _ _ _ => rfl⟩
        intro e r _ _ hok
        cases hok
      | err smsg =>
        have hval : get_mx_records env cache domain = (none, cache) := by
          simp [get_mx_records, hc, hm, hs]
        rw [hval]
        refine ⟨fun _ => rfl, Or.inl rfl, ?_, fun _ _ _ _ => rfl⟩
        intro e r _ _ hok
        cases hok

/-- Witness for C6: both resolvers fail, so the call returns `none` and
writes nothing to the cache. -/
theorem mx_cache_success_only_witness :
    get_mx_records env_dnsfail [] "down.test" = (none, []) :=
  (mx_cache_success_only env_dnsfail [] "down.test").2.2.2 "timeout" rfl rfl
    (fun records h => by exact absurd h (by simp [env_dnsfail]))

/-- C7: for a well-formed, non-disposable, non-role address whose domain
is not yet cached and has neither MX nor A records, `verify` returns
INVALID/"No MX Records" with all booleans false, and an empty host list
is written to the MX cache for that domain. -/
theorem no_mx_records_invalid (env : Env) (st : VState) (email : String)
    (dpart : List Char)
    (hfault : env.fault = none)
    (hsyn : check_stx email = true)
    (hdom : (pySplit '@' email.data)[1]? = some dpart)
    (hdisp : is_disposable (pyLower (String.mk dpart)) = false)
    (hrole : is_role_account email = false)
    (hcache : st.mx_cache.lookup (pyLower (String.mk dpart)) = none)
    (hmx : env.mx (pyLower (String.mk dpart)) = .noAnswer)
    (ha : env.aRecord (pyLower (String.mk dpart)) = false) :
    verify env st email =
      (⟨email, "INVALID", "No MX Records", false, false, false⟩,
       ⟨(pyLower (String.mk dpart), []) :: st.mx_cache, st.catch_all_cache⟩) := by
  simp [verify, hfault, verify_body, hsyn, hdom, hdisp, hrole,
    get_mx_records, hcache, hmx, ha]

/-- Witness for C7. -/
theorem no_mx_records_invalid_witness :
    verify env_nomx ⟨[], []⟩ "bob@dead.test" =
      (⟨"bob@dead.test", "INVALID", "No MX Records", false, false, false⟩,
       ⟨[("dead.test", [])], []⟩) :=
  no_mx_records_invalid env_nomx ⟨[], []⟩ "bob@dead.test" "dead.test".data
    rfl (by decide) (by decide) (by decide) (by decide) rfl rfl rfl

/-- The loop `for i in range(0, total, 50)` runs `⌈(stop - start)/50⌉`
times. -/
theorem pyRange_length_50 (stop start : Nat) :
    (pyRange stop 50 start).length = (stop - start + 49) / 50 := by
  rw [pyRange]
  split
  · rename_i h
    rw [List.length_cons, pyRange_length_50 stop (start + 50)]
    omega
  · rename_i h
    rw [List.length_nil]
    omega
termination_by stop - start
decreasing_by omega

/-- The reported cumulative counts `min (i + 50) stop` are monotonically
non-decreasing along the loop. -/
theorem pyRange_progress_chain (stop start : Nat) :
    List.Chain' (· ≤ ·) ((pyRange stop 50 start).map (fun i => min (i + 50) stop)) := by
  rw [pyRange]
  split
  · rename_i h
    rw [List.map_cons, List.chain'_cons']
    refine ⟨?_, pyRange_progress_chain stop (start + 50)⟩
    intro y hy
    rw [pyRange] at hy
    split at hy
    · rw [List.map_cons, List.head?_cons, Option.mem_def, Option.some.injEq] at hy
      omega
    · simp at hy
  · simp
termination_by stop - start
decreasing_by omega

/-- The last reported cumulative count is exactly `stop` whenever the
loop runs at least once. -/
theorem pyRange_progress_last (stop start : Nat) (h : start < stop) :
    ((pyRange stop 50 start).map (fun i => min (i + 50) stop)).getLast? = some stop := by
  rw [pyRange, dif_pos ⟨h, by omega⟩, List.map_cons]
  by_cases h2 : start + 50 < stop
  · have ih := pyRange_progress_last stop (start + 50) h2
    rw [pyRange, dif_pos ⟨h2, by omega⟩, List.map_cons] at ih ⊢
    rw [List.getLast?_cons_cons]
    exact ih
  · rw [pyRange, dif_neg (by omega), List.map_nil, List.getLast?_singleton,
      Option.some.injEq]
    omega
termination_by stop - start
decreasing_by omega

/-- C9: for any list of N addresses, the batch loop of `process_csv`
(window size 50) reports progress exactly `⌈N/50⌉` times, the reported
cumulative counts are monotonically non-decreasing, and when N > 0 the
last reported value is exactly N. -/
theorem batch_progress_reports (emails : List String) :
    (progress_updates emails).length = (emails.length + 49) / 50 ∧
    List.Chain' (· ≤ ·) (progress_updates emails) ∧
    (0 < emails.length →
      (progress_updates emails).getLast? = some emails.length) := by
  refine ⟨?_, ?_, ?_⟩
  · simp only [progress_updates, BATCH_SIZE, List.length_map, pyRange_length_50]
    omega
  · exact pyRange_progress_chain emails.length 0
  · intro h
    exact pyRange_progress_last emails.length 0 h

/-- Witness for C9: 120 addresses are reported in 3 windows, ending at
120. -/
theorem batch_progress_reports_witness :
    (progress_updates (List.replicate 120 "x@y.zz")).length = 3 ∧
    (progress_updates (List.replicate 120 "x@y.zz")).getLast? =
      some (List.replicate 120 "x@y.zz").length := by
  have h := batch_progress_reports (List.replicate 120 "x@y.zz")
  exact ⟨by rw [h.1]; rfl, h.2.2 (by simp)⟩

/-- `pySplit` never returns an empty list of pieces (Python's `split`
always returns at least one piece). -/
theorem pySplit_ne_nil (sep : Char) (s : List Char) : pySplit sep s ≠ [] := by
  cases s with
  | nil => simp [pySplit]
  | cons c cs =>
    simp only [pySplit]
    split
    · simp
    · split <;> simp

/-- If the separator occurs in the string, `pySplit` returns at least two
pieces. -/
theorem two_le_pySplit_length (sep : Char) (s : List Char) (h : sep ∈ s) :
    2 ≤ (pySplit sep s).length := by
  induction s with
  | nil => cases h
  | cons c cs ih =>
    simp only [pySplit]
    split
    · have h1 : 0 < (pySplit sep cs).length :=
        List.length_pos.mpr (pySplit_ne_nil sep cs)
      rw [List.length_cons]
      omega
    · rename_i hc
      have hmem : sep ∈ cs := by
        cases h with
        | head => exact absurd rfl hc
        | tail _ h' => exact h'
      have h2 := ih hmem
      cases hl : pySplit sep cs with
      | nil => exact absurd hl (pySplit_ne_nil sep cs)
      | cons a as =>
        rw [hl, List.length_cons] at h2
        simp only [hl, List.length_cons]
        omega

/-- Any string accepted by the syntax regex contains an `@`. -/
theorem mem_of_check_stx (email : String) (h : check_stx email = true) :
    '@' ∈ email.data := by
  simp only [check_stx] at h
  split at h
  · rename_i d heq
    have h1 : '@' ∈
        (if email.data.getLast? = some '\n' then email.data.dropLast else email.data) :=
      List.mem_of_mem_drop (heq ▸ List.mem_cons_self '@' d)
    by_cases hl : email.data.getLast? = some '\n'
    · rw [if_pos hl] at h1
      exact List.Sublist.mem h1 (List.dropLast_sublist email.data)
    · rwa [if_neg hl] at h1
  · cases h

/-- Any string accepted by the syntax regex splits at `@` into at least
two pieces, so the index-1 access of `verify` succeeds. -/
theorem pySplit_snd_exists (email : String) (h : check_stx email = true) :
    ∃ dpart, (pySplit '@' email.data)[1]? = some dpart := by
  have h2 := two_le_pySplit_length '@' email.data (mem_of_check_stx email h)
  exact ⟨(pySplit '@' email.data)[1], List.getElem?_eq_getElem (by omega)⟩

/-- Two strings whose first characters differ are different. -/
theorem ne_of_data_head (a c : String) (h : a.data.head? ≠ c.data.head?) : a ≠ c :=
  fun he => h (congrArg (fun s => s.data.head?) he)

/-- `String.append` concatenates the underlying character lists. -/
theorem string_data_append (a b : String) : (a ++ b).data = a.data ++ b.data := by
  cases a
  cases b
  rfl

/-- A `System Error: <detail>` reason is never the `Invalid Format`
reason. -/
theorem systemError_reason_ne (e : String) :
    "System Error: " ++ e ≠ "Invalid Format" := by
  apply ne_of_data_head
  rw [string_data_append]
  show some 'S' ≠ some 'I'
  decide

/-- No reason produced by `check_smtp` is the `Invalid Format` reason. -/
theorem check_smtp_reason_ne (env : Env) (email mx_server : String) :
    (check_smtp env email mx_server).reason ≠ "Invalid Format" := by
  unfold check_smtp
  cases env.probe email mx_server with
  | reply c m =>
    by_cases h250 : c = 250
    · simp [h250]
    · by_cases h550 : c = 550
      · simp [h250, h550]
      · simp only [h250, h550, if_false, if_neg h250, if_neg h550]
        apply ne_of_data_head
        rw [string_data_append, string_data_append, string_data_append]
        show some 'S' ≠ some 'I'
        decide
  | responseExc c m =>
    apply ne_of_data_head
    rw [string_data_append, string_data_append, string_data_append]
    show some 'S' ≠ some 'I'
    decide
  | connBlocked => decide
  | otherExc m =>
    apply ne_of_data_head
    rw [string_data_append]
    show some 'S' ≠ some 'I'
    decide

/-- C10: every string accepted by `check_syntax` splits at `@` into at
least two pieces, so the `IndexError` branch of `verify` is unreachable,
and `verify` never returns the reason `Invalid Format` (for any
environment, state and input). -/
theorem no_invalid_format_reason (env : Env) (st : VState) (email : String) :
    (check_stx email = true → 2 ≤ (pySplit '@' email.data).length) ∧
    (verify env st email).1.reason ≠ "Invalid Format" := by
  constructor
  · intro h
    exact two_le_pySplit_length '@' email.data (mem_of_check_stx email h)
  · unfold verify
    cases hf : env.fault with
    | some e => exact systemError_reason_ne e
    | none =>
      unfold verify_body
      by_cases hs : check_stx email = false
      · simp [hs]
      · have hs' : check_stx email = true := by
          cases hq : check_stx email
          · exact absurd hq hs
          · rfl
        obtain ⟨dpart, hd⟩ := pySplit_snd_exists email hs'
        simp only [hs', hd]
        repeat' split
        any_goals simp_all
        all_goals exact check_smtp_reason_ne env email _

/-- Witness for C10: a concrete accepted address splits into two
pieces. -/
theorem no_invalid_format_reason_witness :
    2 ≤ (pySplit '@' "a@b.co".data).length :=
  (no_invalid_format_reason env_nomx ⟨[], []⟩ "a@b.co").1 (by decide)

end EmailVerifierModel
